import Mathlib

/-!
# Setter synchronisation in kustomize: `FieldSetter`, `SetAllSetterDefinitions`, `delete-setter`

Shallow embedding of

* `kyaml/setters2/settersutil/fieldsetter.go` (`FieldSetter.Filter`, `FieldSetter.Set`,
  `SetAllSetterDefinitions`),
* `cmd/config/internal/commands/cmddeletesetter.go` (`DeleteSetterRunner.executeCmd`).

The Go code is stateful: it reads and writes files and calls into packages whose sources are
not part of the development (`setters2`, `openapi`, `kio`, `ext`, `fieldmeta`).  The embedding
passes the state explicitly (`World`), takes the absent operations as the fields of an
environment (`Env`), and records every call made by the embedded functions in a trace.
A Go `error` is identified with its message, `nil` is `none`.
-/

namespace Kustomize

/-! ## Files and the world -/

/-- The Go `error` interface, identified with the text returned by `Error()`. -/
abbrev Err := String

/-- One regular file: its bytes and its `os.FileMode` (a `uint32`). -/
structure FileInfo where
  data : String
  mode : Nat
deriving DecidableEq, Repr

/-- One field of a resource document; `setter` is the binding marker of the field, when it has
one (spec §3, "field bindings"). -/
structure Field where
  key : String
  value : String
  setter : Option String
deriving DecidableEq, Repr

/-- One resource document of a package, at the level of the document model (spec §3).
`wellFormed = false` stands for a file that the document model cannot parse. -/
structure ResourceDocument where
  path : String
  dir : String
  wellFormed : Bool
  fields : List Field
deriving DecidableEq, Repr

/-- Everything the embedded functions can observe or change: the files (by path), the
process-global table of loaded setter definitions (`openapi` keeps it in a package variable),
and the resource documents. -/
structure World where
  fs : String → Option FileInfo
  defs : List (String × String)
  docs : List ResourceDocument

/-- Replace the bytes of `path`.  An existing file keeps its mode (`O_CREATE` only uses `perm`
when it creates the file); a fresh file gets `perm` (the umask is not modelled). -/
def World.put (w : World) (path data : String) (perm : Nat) : World :=
  { w with fs := fun p =>
      if p = path then
        match w.fs path with
        | some f => some { data := data, mode := f.mode }
        | none => some { data := data, mode := perm }
      else w.fs p }

/-- The bytes of the file at `path`, if it exists. -/
def World.bytes (w : World) (path : String) : Option String :=
  (w.fs path).map FileInfo.data

/-! ## The operating system calls made by `FieldSetter.Set` -/

/-- How a call of `ioutil.WriteFile` can fail: `OpenFile` fails and the file is untouched, or
the file was truncated by `O_TRUNC` and the write stopped after `n` bytes. -/
inductive WriteFault where
  | openFailed (e : Err)
  | writeFailed (e : Err) (n : Nat)
deriving DecidableEq, Repr

/-- I/O faults injected into the three operating system calls of one `FieldSetter.Set` run.
`none` means that the call behaves as the file system state dictates. -/
structure Faults where
  stat : Option Err
  read : Option Err
  write : Option WriteFault
deriving DecidableEq, Repr

/-- No injected fault. -/
def Faults.none : Faults := { stat := Option.none, read := Option.none, write := Option.none }

/-- Go `os.Stat`; the result is reduced to the `Mode()` of the returned `FileInfo`. -/
def os.Stat (fl : Faults) (name : String) (w : World) : Except Err Nat :=
  match fl.stat with
  | some e => .error e
  | none =>
    match w.fs name with
    | some f => .ok f.mode
    | none => .error ("stat " ++ name ++ ": no such file or directory")

/-- Go `FileMode.Perm`: `m & ModePerm` with `ModePerm = 0777`. -/
def FileMode.Perm (m : Nat) : Nat := m &&& 0o777

/-- Go `ioutil.ReadFile`. -/
def ioutil.ReadFile (fl : Faults) (filename : String) (w : World) : Except Err String :=
  match fl.read with
  | some e => .error e
  | none =>
    match w.fs filename with
    | some f => .ok f.data
    | none => .error ("open " ++ filename ++ ": no such file or directory")

/-- Go `ioutil.WriteFile`: `OpenFile(filename, O_WRONLY|O_CREATE|O_TRUNC, perm)`, then `Write`,
then `Close`. -/
def ioutil.WriteFile (fl : Faults) (filename data : String) (perm : Nat) (w : World) :
    World × Option Err :=
  match fl.write with
  | some (.openFailed e) => (w, some e)
  | some (.writeFailed e n) => (w.put filename (String.mk (data.toList.take n)) perm, some e)
  | none => (w.put filename data perm, Option.none)

/-! ## Data types of the absent packages, as far as the sources name their fields -/

/-- The struct `setters2.SetOpenAPI`, with the fields that `FieldSetter.Set` fills in. -/
structure SetOpenAPI where
  Name : String
  Value : String
  ListValues : List String
  Description : String
  SetBy : String
deriving DecidableEq, Repr

/-- The struct `kio.LocalPackageReadWriter`, with the fields the sources set; the others keep
their zero value. -/
structure LocalPackageReadWriter where
  PackagePath : String
  NoDeleteFiles : Bool
  PackageFileName : String
deriving DecidableEq, Repr

/-- The struct `setters2.Set`, with the fields the sources set or read. -/
structure setters2.Set where
  Name : String
  Count : Int
  SetAll : Bool
deriving DecidableEq, Repr

/-- The struct `kio.Pipeline`.  Every filter in the sources is `setters2.SetAll(s)` for a
`setters2.Set` value `s`, so a filter is represented by its `s`. -/
structure Pipeline where
  Inputs : List LocalPackageReadWriter
  Filters : List setters2.Set
  Outputs : List LocalPackageReadWriter
deriving DecidableEq, Repr

/-- The outcome of `Pipeline.Execute`: the world it leaves, the state of the `setters2.Set`
the caller shares with the filter by pointer (its `Count` is updated by the filter), and the
returned error. -/
structure ExecResult where
  world : World
  s : setters2.Set
  err : Option Err

/-- The struct `settersutil.DeleterCreator`, with the fields `executeCmd` sets. -/
structure DeleterCreator where
  Name : String
  DefinitionPrefix : String
  RecurseSubPackages : Bool
  OpenAPIFileName : String
  OpenAPIPath : String
  ResourcesPath : String
deriving DecidableEq, Repr

/-- The operations that the embedded functions call and whose sources are absent.  Each one
is a function of the world; a returned `some e` is a non-nil error. -/
structure Env where
  /-- The method `setters2.SetOpenAPI.UpdateFile(path)`. -/
  UpdateFile : SetOpenAPI → String → World → World × Option Err
  /-- The function `openapi.AddSchemaFromFile(path)`. -/
  AddSchemaFromFile : String → World → World × Option Err
  /-- The method `kio.Pipeline.Execute()`. -/
  Execute : Pipeline → World → ExecResult
  /-- The method `settersutil.DeleterCreator.Delete()`. -/
  Delete : DeleterCreator → World → World × Option Err
  /-- The function `ext.OpenAPIFileName()`. -/
  OpenAPIFileName : Except Err String
  /-- The constant `fieldmeta.SetterDefinitionPrefix`. -/
  SetterDefinitionPrefix : String
  /-- The function `filepath.Join` on two elements. -/
  Join : String → String → String
  /-- The rendering of a string by the verb `%q` of `fmt` (that is `strconv.Quote`). -/
  Quote : String → String

/-- One call made by an embedded function, in the order of the calls. -/
inductive Event where
  | stat (path : String)
  | readFile (path : String)
  | updateFile (soa : SetOpenAPI) (path : String)
  | addSchemaFromFile (path : String)
  | execute (p : Pipeline)
  | writeFile (path : String) (data : String) (perm : Nat)
deriving DecidableEq, Repr

/-- Whether the event is a run of the document pipeline. -/
def Event.isExecute : Event → Bool
  | .execute _ => true
  | _ => false

/-- Whether the event is a file write made by the embedded function itself. -/
def Event.isWriteFile : Event → Bool
  | .writeFile _ _ _ => true
  | _ => false

/-! ## `fieldsetter.go` -/

/-- The struct `settersutil.FieldSetter`. -/
structure FieldSetter where
  Name : String
  Value : String
  ListValues : List String
  Description : String
  SetBy : String
  Count : Int
  OpenAPIPath : String
  OpenAPIFileName : String
  ResourcesPath : String
  RecurseSubPackages : Bool
deriving DecidableEq, Repr

/-- What a run of `FieldSetter.Set` returns (`count`, `err`) and leaves behind (`world`),
together with the calls it made (`trace`). -/
structure SetResult where
  count : Int
  err : Option Err
  world : World
  trace : List Event

/-- The `setters2.SetOpenAPI` value built at the start of `FieldSetter.Set`. -/
def FieldSetter.soa (fs : FieldSetter) : SetOpenAPI :=
  { Name := fs.Name, Value := fs.Value, ListValues := fs.ListValues,
    Description := fs.Description, SetBy := fs.SetBy }

/-- The `kio.LocalPackageReadWriter` value `inout` of `FieldSetter.Set`. -/
def FieldSetter.inout (fs : FieldSetter) : LocalPackageReadWriter :=
  { PackagePath := fs.ResourcesPath, NoDeleteFiles := true, PackageFileName := fs.OpenAPIFileName }

/-- The `setters2.Set` value `s` of `FieldSetter.Set`, as created (`Count` is zero). -/
def FieldSetter.s (fs : FieldSetter) : setters2.Set :=
  { Name := fs.Name, Count := 0, SetAll := false }

/-- The `kio.Pipeline` value that `FieldSetter.Set` executes. -/
def FieldSetter.pipeline (fs : FieldSetter) : Pipeline :=
  { Inputs := [fs.inout], Filters := [fs.s], Outputs := [fs.inout] }

/-- The method `FieldSetter.Set` of `fieldsetter.go`. -/
def FieldSetter.Set (E : Env) (fl : Faults) (fs : FieldSetter) (w : World) : SetResult :=
  match os.Stat fl fs.OpenAPIPath w with
  | .error err => { count := 0, err := some err, world := w, trace := [.stat fs.OpenAPIPath] }
  | .ok stat =>
    match ioutil.ReadFile fl fs.OpenAPIPath w with
    | .error err =>
      { count := 0, err := some err, world := w,
        trace := [.stat fs.OpenAPIPath, .readFile fs.OpenAPIPath] }
    | .ok curOpenAPI =>
      match E.UpdateFile fs.soa fs.OpenAPIPath w with
      | (w1, some err) =>
        { count := 0, err := some err, world := w1,
          trace := [.stat fs.OpenAPIPath, .readFile fs.OpenAPIPath,
                    .updateFile fs.soa fs.OpenAPIPath] }
      | (w1, none) =>
        match E.AddSchemaFromFile fs.OpenAPIPath w1 with
        | (w2, some err) =>
          { count := 0, err := some err, world := w2,
            trace := [.stat fs.OpenAPIPath, .readFile fs.OpenAPIPath,
                      .updateFile fs.soa fs.OpenAPIPath, .addSchemaFromFile fs.OpenAPIPath] }
        | (w2, none) =>
          let r := E.Execute fs.pipeline w2
          match r.err with
          | some err =>
            match ioutil.WriteFile fl fs.OpenAPIPath curOpenAPI (FileMode.Perm stat) r.world with
            | (w4, some writeErr) =>
              { count := 0, err := some writeErr, world := w4,
                trace := [.stat fs.OpenAPIPath, .readFile fs.OpenAPIPath,
                          .updateFile fs.soa fs.OpenAPIPath, .addSchemaFromFile fs.OpenAPIPath,
                          .execute fs.pipeline,
                          .writeFile fs.OpenAPIPath curOpenAPI (FileMode.Perm stat)] }
            | (w4, none) =>
              { count := r.s.Count, err := some err, world := w4,
                trace := [.stat fs.OpenAPIPath, .readFile fs.OpenAPIPath,
                          .updateFile fs.soa fs.OpenAPIPath, .addSchemaFromFile fs.OpenAPIPath,
                          .execute fs.pipeline,
                          .writeFile fs.OpenAPIPath curOpenAPI (FileMode.Perm stat)] }
          | none =>
            { count := r.s.Count, err := none, world := r.world,
              trace := [.stat fs.OpenAPIPath, .readFile fs.OpenAPIPath,
                        .updateFile fs.soa fs.OpenAPIPath, .addSchemaFromFile fs.OpenAPIPath,
                        .execute fs.pipeline] }

/-- What a call of `FieldSetter.Filter` returns (`nodes`, `err`), the receiver after the call
(`fs`, the method has a pointer receiver) and the world it leaves. -/
structure FilterResult (Node : Type) where
  fs : FieldSetter
  nodes : List Node
  err : Option Err
  world : World

/-- The method `FieldSetter.Filter` of `fieldsetter.go`.  `Node` stands for `*yaml.RNode`; the
returned `nil` slice is the empty list. -/
def FieldSetter.Filter {Node : Type} (E : Env) (fl : Faults) (fs : FieldSetter)
    (_input : List Node) (w : World) : FilterResult Node :=
  let r := FieldSetter.Set E fl fs w
  { fs := { fs with Count := r.count }, nodes := [], err := none, world := r.world }

/-- What `SetAllSetterDefinitions` returns and leaves behind, with the calls it made. -/
structure SetAllResult where
  err : Option Err
  world : World
  trace : List Event

/-- The `kio.LocalPackageReadWriter` value `rw` built for `dir` in `SetAllSetterDefinitions`;
`PackageFileName` keeps its zero value. -/
def SetAllSetterDefinitions.rw (dir : String) : LocalPackageReadWriter :=
  { PackagePath := dir, NoDeleteFiles := true, PackageFileName := "" }

/-- The `setters2.Set` value behind the filter of `SetAllSetterDefinitions`. -/
def SetAllSetterDefinitions.s : setters2.Set :=
  { Name := "", Count := 0, SetAll := true }

/-- The `kio.Pipeline` value executed for `dir` in `SetAllSetterDefinitions`. -/
def SetAllSetterDefinitions.pipeline (dir : String) : Pipeline :=
  { Inputs := [SetAllSetterDefinitions.rw dir], Filters := [SetAllSetterDefinitions.s],
    Outputs := [SetAllSetterDefinitions.rw dir] }

/-- The `for _, dir := range dirs` loop of `SetAllSetterDefinitions`; `tr` holds the calls
made so far. -/
def SetAllSetterDefinitions.loop (E : Env) : List String → World → List Event → SetAllResult
  | [], w, tr => { err := none, world := w, trace := tr }
  | dir :: dirs, w, tr =>
    let r := E.Execute (SetAllSetterDefinitions.pipeline dir) w
    match r.err with
    | some err =>
      { err := some err, world := r.world,
        trace := tr ++ [.execute (SetAllSetterDefinitions.pipeline dir)] }
    | none =>
      SetAllSetterDefinitions.loop E dirs r.world
        (tr ++ [.execute (SetAllSetterDefinitions.pipeline dir)])

/-- The function `SetAllSetterDefinitions` of `fieldsetter.go`. -/
def SetAllSetterDefinitions (E : Env) (openAPIPath : String) (dirs : List String) (w : World) :
    SetAllResult :=
  match E.AddSchemaFromFile openAPIPath w with
  | (w1, some err) => { err := some err, world := w1, trace := [.addSchemaFromFile openAPIPath] }
  | (w1, none) => SetAllSetterDefinitions.loop E dirs w1 [.addSchemaFromFile openAPIPath]

/-- The pipelines of `dirs`, run in order from `w`, all succeed (each one starts from the
world its predecessor left). -/
def SetAllSetterDefinitions.allSucceed (E : Env) : List String → World → Bool
  | [], _ => true
  | dir :: dirs, w =>
    (E.Execute (SetAllSetterDefinitions.pipeline dir) w).err.isNone &&
      SetAllSetterDefinitions.allSucceed E dirs
        (E.Execute (SetAllSetterDefinitions.pipeline dir) w).world

/-- The world left by the pipelines of `dirs`, run in order from `w`. -/
def SetAllSetterDefinitions.worldAfter (E : Env) : List String → World → World
  | [], w => w
  | dir :: dirs, w =>
    SetAllSetterDefinitions.worldAfter E dirs
      (E.Execute (SetAllSetterDefinitions.pipeline dir) w).world

/-! ## `cmddeletesetter.go` -/

/-- The struct `commands.DeleteSetterRunner`; the `Command` field (a `*cobra.Command`) plays no
part in `executeCmd` and is left out. -/
structure DeleteSetterRunner where
  DeleteSetter : DeleterCreator
  OpenAPIFile : String
  RecurseSubPackages : Bool
deriving DecidableEq, Repr

/-- What a call of `executeCmd` returns (`err`), the receiver after the call (`r`, a pointer
receiver), the chunks handed to the `io.Writer` by the call, in order (`written`, one chunk per
`Fprintf`), and the world it leaves. -/
structure CmdResult where
  r : DeleteSetterRunner
  written : List String
  err : Option Err
  world : World

/-- The `settersutil.DeleterCreator` value that `executeCmd` assigns to `r.DeleteSetter`. -/
def DeleteSetterRunner.deleter (E : Env) (r : DeleteSetterRunner) (pkgPath : String)
    (openAPIFileName : String) : DeleterCreator :=
  { Name := r.DeleteSetter.Name,
    DefinitionPrefix := E.SetterDefinitionPrefix,
    RecurseSubPackages := r.RecurseSubPackages,
    OpenAPIFileName := openAPIFileName,
    OpenAPIPath := E.Join pkgPath openAPIFileName,
    ResourcesPath := pkgPath }

/-- The method `DeleteSetterRunner.executeCmd` of `cmddeletesetter.go`. -/
def DeleteSetterRunner.executeCmd (E : Env) (r : DeleteSetterRunner) (pkgPath : String)
    (w : World) : CmdResult :=
  match E.OpenAPIFileName with
  | .error err => { r := r, written := [], err := some err, world := w }
  | .ok openAPIFileName =>
    let r1 : DeleteSetterRunner :=
      { r with DeleteSetter := r.deleter E pkgPath openAPIFileName }
    match E.Delete r1.DeleteSetter w with
    | (w1, some err) =>
      if !r1.DeleteSetter.RecurseSubPackages then
        { r := r1, written := [], err := some err, world := w1 }
      else
        { r := r1, written := [err ++ " in package " ++ E.Quote pkgPath ++ "\n\n"],
          err := none, world := w1 }
    | (w1, none) =>
      { r := r1,
        written := ["deleted setter " ++ E.Quote r1.DeleteSetter.Name ++ " in package "
                      ++ E.Quote pkgPath ++ "\n\n"],
        err := none, world := w1 }

/-! ## A small instance of the absent operations

The theorems below hold for every `Env`.  To run them on concrete packages the absent
operations are instantiated here, following the descriptions of spec §4.1 to §4.4.  A schema
file of this instance is a sequence of lines `name=value`, one per setter definition. -/

namespace Model

/-- Split a line at its first `=`. -/
def splitEq : List Char → Option (List Char × List Char)
  | [] => none
  | c :: cs =>
    if c = '=' then some ([], cs)
    else
      match splitEq cs with
      | some p => some (c :: p.1, p.2)
      | none => none

/-- Cut a text at its line feeds. -/
def linesOf : List Char → List (List Char)
  | [] => []
  | c :: cs =>
    if c = '\n' then [] :: linesOf cs
    else
      match linesOf cs with
      | [] => [[c]]
      | l :: ls => (c :: l) :: ls

/-- Read the definitions off the lines of a schema file; empty lines are skipped, a line
without `=` is malformed. -/
def parseLines : List (List Char) → Option (List (String × String))
  | [] => some []
  | l :: ls =>
    if l.isEmpty then parseLines ls
    else
      match splitEq l, parseLines ls with
      | some p, some ds => some ((String.mk p.1, String.mk p.2) :: ds)
      | _, _ => none

/-- Modelled from the spec: `Load` of the Definition Store (§4.1), absent from the sources, on
the bytes of a schema file; `none` is a `ParseError`. -/
def parseDefs (data : String) : Option (List (String × String)) :=
  parseLines (linesOf data.toList)

/-- Modelled from the spec: `Serialize` of the Definition Store (§4.1), absent from the
sources. -/
def render : List (String × String) → String
  | [] => ""
  | d :: ds => d.1 ++ "=" ++ d.2 ++ "\n" ++ render ds

/-- Whether `name` is defined. -/
def defined (name : String) (ds : List (String × String)) : Bool :=
  ds.any (fun d => d.1 == name)

/-- The stored value of `name`, if it is defined. -/
def lookup (name : String) : List (String × String) → Option String
  | [] => none
  | d :: ds => if d.1 = name then some d.2 else lookup name ds

/-- Modelled from the spec: `setters2.SetOpenAPI.UpdateFile`, absent from the sources, after step
(2) of §4.4: overwrite the stored value of the named definition and persist the schema file.
Setting a name the schema does not define is a `NotFoundError` that writes nothing (§8, last
scenario); a scalar value together with list values is a `ConflictError` (§4.1). -/
def UpdateFile (soa : SetOpenAPI) (path : String) (w : World) : World × Option Err :=
  match w.fs path with
  | none => (w, some ("NotFoundError: open " ++ path))
  | some f =>
    match parseDefs f.data with
    | none => (w, some ("ParseError: " ++ path))
    | some ds =>
      if soa.Value ≠ "" ∧ soa.ListValues ≠ [] then
        (w, some "ConflictError: value and list values are both set")
      else if defined soa.Name ds then
        (w.put path (render (ds.map (fun d => if d.1 = soa.Name then (d.1, soa.Value) else d)))
          f.mode, none)
      else (w, some ("NotFoundError: setter " ++ soa.Name ++ " is not defined"))

/-- Modelled from the spec: `openapi.AddSchemaFromFile`, absent from the sources, after step (3)
of §4.4: reload the definitions from the persisted file into the process-global table.
`fault` is an I/O error injected into the read of the file. -/
def AddSchemaFromFile (fault : Option Err) (path : String) (w : World) : World × Option Err :=
  match fault with
  | some e => (w, some e)
  | none =>
    match w.fs path with
    | none => (w, some ("NotFoundError: open " ++ path))
    | some f =>
      match parseDefs f.data with
      | none => (w, some ("ParseError: " ++ path))
      | some ds => ({ w with defs := ds ++ w.defs }, none)

/-- Whether the filter behind `s` targets a binding to the setter `n` (§4.3: the named
setter, or any setter in the apply-all mode). -/
def targets (s : setters2.Set) (n : String) : Bool :=
  s.SetAll || n == s.Name

/-- Modelled from the spec: the Setter Filter (§4.3), absent from the sources, on one field: a
field bound to a targeted, known setter takes the stored value of the setter. -/
def setField (s : setters2.Set) (defs : List (String × String)) (f : Field) : Field :=
  match f.setter with
  | none => f
  | some n =>
    if targets s n then
      match lookup n defs with
      | some v => { f with value := v }
      | none => f
    else f

/-- Whether `setField` rewrites the field. -/
def rewrites (s : setters2.Set) (defs : List (String × String)) (f : Field) : Bool :=
  match f.setter with
  | none => false
  | some n => targets s n && (lookup n defs).isSome

/-- The number of fields of the document that the filter rewrites. -/
def countDoc (s : setters2.Set) (defs : List (String × String)) (d : ResourceDocument) : Nat :=
  (d.fields.filter (rewrites s defs)).length

/-- Whether the document belongs to one of the packages the pipeline reads. -/
def inInputs (p : Pipeline) (d : ResourceDocument) : Bool :=
  p.Inputs.any (fun i => i.PackagePath == d.dir)

/-- Whether every output of the pipeline preserves untouched files. -/
def noDelete (p : Pipeline) : Bool :=
  p.Outputs.all (fun o => o.NoDeleteFiles)

/-- Modelled from the spec: the write stage of the Document Pipeline (§4.2), absent from the
sources: documents the filter rewrote are written back, the others are left alone when the
preserve-untouched flag is set and deleted otherwise; documents of other packages are not
touched. -/
def writeDocs (p : Pipeline) (s : setters2.Set) (defs : List (String × String)) :
    List ResourceDocument → List ResourceDocument
  | [] => []
  | d :: ds =>
    if inInputs p d then
      if 0 < countDoc s defs d then
        { d with fields := d.fields.map (setField s defs) } :: writeDocs p s defs ds
      else if noDelete p then d :: writeDocs p s defs ds
      else writeDocs p s defs ds
    else d :: writeDocs p s defs ds

/-- The number of fields the filter rewrites over the documents the pipeline reads. -/
def countDocs (p : Pipeline) (s : setters2.Set) (defs : List (String × String)) :
    List ResourceDocument → Nat
  | [] => 0
  | d :: ds => (if inInputs p d then countDoc s defs d else 0) + countDocs p s defs ds

/-- Modelled from the spec: `kio.Pipeline.Execute` with setter filters (§4.2, §4.3), absent from
the sources.  A document of the package that does not parse aborts the run with nothing
applied. -/
def Execute (p : Pipeline) (w : World) : ExecResult :=
  match p.Filters with
  | [] => { world := w, s := { Name := "", Count := 0, SetAll := false }, err := none }
  | s :: _ =>
    if w.docs.any (fun d => inInputs p d && !d.wellFormed) then
      { world := w, s := s, err := some "ParseError: malformed resource document" }
    else
      { world := { w with docs := writeDocs p s w.defs w.docs },
        s := { s with Count := s.Count + (countDocs p s w.defs w.docs : Nat) },
        err := none }

/-- Whether some field of a document of the package is bound to the setter. -/
def referenced (dir name : String) (docs : List ResourceDocument) : Bool :=
  docs.any (fun d => d.dir == dir && d.fields.any (fun f => f.setter == some name))

/-- Modelled from the spec: `settersutil.DeleterCreator.Delete`, absent from the sources, after
the delete operation of §4.4 without force: removing a setter the schema does not define is a
`NotFoundError`, removing one that a field still references is a `ReferencedError`, and neither
writes anything. -/
def Delete (d : DeleterCreator) (w : World) : World × Option Err :=
  match w.fs d.OpenAPIPath with
  | none => (w, some ("NotFoundError: open " ++ d.OpenAPIPath))
  | some f =>
    match parseDefs f.data with
    | none => (w, some ("ParseError: " ++ d.OpenAPIPath))
    | some ds =>
      if !defined d.Name ds then (w, some ("NotFoundError: setter " ++ d.Name ++ " does not exist"))
      else if referenced d.ResourcesPath d.Name w.docs then
        (w, some ("ReferencedError: setter " ++ d.Name ++ " is used"))
      else (w.put d.OpenAPIPath (render (ds.filter (fun x => x.1 != d.Name))) f.mode, none)

/-- The rendering of `%q` on text made of printable characters other than the double quote
and the backslash: the text between double quotes. -/
def Quote (s : String) : String := "\"" ++ s ++ "\""

/-- The absent operations, instantiated; `reloadFault` is an I/O error injected into the
reload of the schema. -/
def env (reloadFault : Option Err) : Env :=
  { UpdateFile := UpdateFile,
    AddSchemaFromFile := AddSchemaFromFile reloadFault,
    Execute := Execute,
    Delete := Delete,
    OpenAPIFileName := .ok "Krmfile",
    SetterDefinitionPrefix := "io.k8s.cli.setters.",
    Join := fun a b => a ++ "/" ++ b,
    Quote := Quote }

/-- A world with the given files and resource documents and nothing loaded. -/
def world (files : List (String × FileInfo)) (docs : List ResourceDocument) : World :=
  { fs := fun p => (files.find? (fun x => x.1 == p)).map Prod.snd, defs := [], docs := docs }

/-- A `FieldSetter` for the package at `dir` that sets `name` to `value`. -/
def fieldSetter (dir name value : String) : FieldSetter :=
  { Name := name, Value := value, ListValues := [], Description := "", SetBy := "", Count := 0,
    OpenAPIPath := dir ++ "/Krmfile", OpenAPIFileName := "Krmfile", ResourcesPath := dir,
    RecurseSubPackages := false }

/-- The package of the scenario of spec §8: the schema defines `replicas` with value `3` and one
resource document has one field bound to `replicas`. -/
def pkg : World :=
  world [("pkg/Krmfile", { data := "replicas=3\n", mode := 0o644 })]
    [{ path := "pkg/deploy.yaml", dir := "pkg", wellFormed := true,
       fields := [{ key := "kind", value := "Deployment", setter := none },
                  { key := "spec.replicas", value := "3", setter := some "replicas" }] }]

/-- The same package with a second resource document that does not parse. -/
def pkgBroken : World :=
  { pkg with docs := pkg.docs ++
      [{ path := "pkg/bad.yaml", dir := "pkg", wellFormed := false, fields := [] }] }

/-- Two packages without resource documents: the schema of `A` defines the setter `x`, the
schema of `B` does not. -/
def pkgsAB : World :=
  world [("A/Krmfile", { data := "x=1\n", mode := 0o644 }),
         ("B/Krmfile", { data := "y=2\n", mode := 0o644 })] []

/-- A `DeleteSetterRunner` as `preRunE` leaves it for the setter `name`. -/
def runner (name : String) (recurse : Bool) : DeleteSetterRunner :=
  { DeleteSetter :=
      { Name := name, DefinitionPrefix := "io.k8s.cli.setters.", RecurseSubPackages := false,
        OpenAPIFileName := "", OpenAPIPath := "", ResourcesPath := "" },
    OpenAPIFile := "Krmfile", RecurseSubPackages := recurse }

/-- Three directories sharing the schema of `pkg`: the only document of `bad` does not parse,
and `late` has one field bound to `replicas` that holds a stale value. -/
def tree : World :=
  { pkg with docs := pkg.docs ++
      [{ path := "bad/x.yaml", dir := "bad", wellFormed := false, fields := [] },
       { path := "late/y.yaml", dir := "late", wellFormed := true,
         fields := [{ key := "spec.replicas", value := "1", setter := some "replicas" }] }] }

end Model

/-! ## Facts about the operating system calls -/

theorem World.bytes_put_same (w : World) (path data : String) (perm : Nat) :
    (w.put path data perm).bytes path = some data := by
  unfold World.bytes World.put
  cases h : w.fs path <;> simp

theorem ioutil.WriteFile_of_ok (fl : Faults) (filename data : String) (perm : Nat) (w : World)
    (h : (ioutil.WriteFile fl filename data perm w).2 = none) :
    ioutil.WriteFile fl filename data perm w = (w.put filename data perm, none) := by
  unfold ioutil.WriteFile at h ⊢
  cases hw : fl.write with
  | none => rfl
  | some f => cases f <;> simp [hw] at h

theorem ioutil.ReadFile_ok_bytes (fl : Faults) (filename : String) (w : World) (B : String)
    (h : ioutil.ReadFile fl filename w = .ok B) : w.bytes filename = some B := by
  unfold ioutil.ReadFile at h
  unfold World.bytes
  cases hr : fl.read with
  | some e => simp [hr] at h
  | none =>
    cases hf : w.fs filename with
    | none => simp [hr, hf] at h
    | some f =>
      simp [hr, hf] at h
      simp [h]

/-! ## `FieldSetter.Set` -/

/-- C1 (atomicity): when the stat and the read of the schema file succeed, the read capturing
the bytes `B`, the schema update and the reload succeed, the document pipeline fails with `e`
and the revert write does not fail, then `B` was the content of the schema file before the
run, it is its content after the run, the last call of the run is the write of `B` to the
schema file with the permission bits of the captured mode, and `Set` returns `e`. -/
theorem Set_pipeline_failure_restores_schema (E : Env) (fl : Faults) (fs : FieldSetter)
    (w w1 w2 : World) (mode : Nat) (B : String) (e : Err)
    (hstat : os.Stat fl fs.OpenAPIPath w = .ok mode)
    (hread : ioutil.ReadFile fl fs.OpenAPIPath w = .ok B)
    (hupd : E.UpdateFile fs.soa fs.OpenAPIPath w = (w1, none))
    (hload : E.AddSchemaFromFile fs.OpenAPIPath w1 = (w2, none))
    (hexec : (E.Execute fs.pipeline w2).err = some e)
    (hwrite : (ioutil.WriteFile fl fs.OpenAPIPath B (FileMode.Perm mode)
                (E.Execute fs.pipeline w2).world).2 = none) :
    w.bytes fs.OpenAPIPath = some B ∧
    (FieldSetter.Set E fl fs w).world.bytes fs.OpenAPIPath = some B ∧
    (FieldSetter.Set E fl fs w).trace.getLast?
      = some (.writeFile fs.OpenAPIPath B (FileMode.Perm mode)) ∧
    (FieldSetter.Set E fl fs w).err = some e := by
  have hw := ioutil.WriteFile_of_ok _ _ _ _ _ hwrite
  refine ⟨ioutil.ReadFile_ok_bytes _ _ _ _ hread, ?_, ?_, ?_⟩
  · simp [FieldSetter.Set, hstat, hread, hupd, hload, hexec, hw, World.bytes_put_same]
  · simp [FieldSetter.Set, hstat, hread, hupd, hload, hexec, hw]
  · simp [FieldSetter.Set, hstat, hread, hupd, hload, hexec, hw]

/-- C3 (a failed revert is surfaced): when the run reaches the document pipeline, the pipeline
fails with `e` and the write that restores the captured bytes fails with `we`, then `Set`
returns the count 0 and the error `we`. -/
theorem Set_revert_failure_is_returned (E : Env) (fl : Faults) (fs : FieldSetter)
    (w w1 w2 : World) (mode : Nat) (B : String) (e we : Err)
    (hstat : os.Stat fl fs.OpenAPIPath w = .ok mode)
    (hread : ioutil.ReadFile fl fs.OpenAPIPath w = .ok B)
    (hupd : E.UpdateFile fs.soa fs.OpenAPIPath w = (w1, none))
    (hload : E.AddSchemaFromFile fs.OpenAPIPath w1 = (w2, none))
    (hexec : (E.Execute fs.pipeline w2).err = some e)
    (hwrite : (ioutil.WriteFile fl fs.OpenAPIPath B (FileMode.Perm mode)
                (E.Execute fs.pipeline w2).world).2 = some we) :
    (FieldSetter.Set E fl fs w).count = 0 ∧ (FieldSetter.Set E fl fs w).err = some we := by
  unfold FieldSetter.Set
  simp only [hstat, hread, hupd, hload, hexec]
  cases hw : ioutil.WriteFile fl fs.OpenAPIPath B (FileMode.Perm mode)
      (E.Execute fs.pipeline w2).world with
  | mk w4 r =>
    rw [hw] at hwrite
    simp only at hwrite
    subst hwrite
    simp

/-- Witness of C1: setting `replicas` to `5` in the package whose second document does not
parse leaves the schema file at `replicas=3` and returns the parse error. -/
theorem Set_pipeline_failure_restores_schema_witness :
    Model.pkgBroken.bytes "pkg/Krmfile" = some "replicas=3\n" ∧
    (FieldSetter.Set (Model.env none) Faults.none (Model.fieldSetter "pkg" "replicas" "5")
      Model.pkgBroken).world.bytes "pkg/Krmfile" = some "replicas=3\n" ∧
    (FieldSetter.Set (Model.env none) Faults.none (Model.fieldSetter "pkg" "replicas" "5")
      Model.pkgBroken).trace.getLast?
      = some (.writeFile "pkg/Krmfile" "replicas=3\n" (FileMode.Perm 0o644)) ∧
    (FieldSetter.Set (Model.env none) Faults.none (Model.fieldSetter "pkg" "replicas" "5")
      Model.pkgBroken).err = some "ParseError: malformed resource document" :=
  Set_pipeline_failure_restores_schema (Model.env none) Faults.none
    (Model.fieldSetter "pkg" "replicas" "5") Model.pkgBroken
    (Model.UpdateFile (Model.fieldSetter "pkg" "replicas" "5").soa "pkg/Krmfile"
      Model.pkgBroken).1
    (Model.AddSchemaFromFile none "pkg/Krmfile"
      (Model.UpdateFile (Model.fieldSetter "pkg" "replicas" "5").soa "pkg/Krmfile"
        Model.pkgBroken).1).1
    0o644 "replicas=3\n" "ParseError: malformed resource document" rfl rfl rfl rfl rfl rfl

/-- Witness of C3: the same run with a revert write that fails in `OpenFile` returns the
error of the write and the count 0. -/
theorem Set_revert_failure_is_returned_witness :
    (FieldSetter.Set (Model.env none)
      { stat := none, read := none, write := some (.openFailed "open pkg/Krmfile: read-only") }
      (Model.fieldSetter "pkg" "replicas" "5") Model.pkgBroken).count = 0 ∧
    (FieldSetter.Set (Model.env none)
      { stat := none, read := none, write := some (.openFailed "open pkg/Krmfile: read-only") }
      (Model.fieldSetter "pkg" "replicas" "5") Model.pkgBroken).err
      = some "open pkg/Krmfile: read-only" :=
  Set_revert_failure_is_returned (Model.env none)
    { stat := none, read := none, write := some (.openFailed "open pkg/Krmfile: read-only") }
    (Model.fieldSetter "pkg" "replicas" "5") Model.pkgBroken
    (Model.UpdateFile (Model.fieldSetter "pkg" "replicas" "5").soa "pkg/Krmfile"
      Model.pkgBroken).1
    (Model.AddSchemaFromFile none "pkg/Krmfile"
      (Model.UpdateFile (Model.fieldSetter "pkg" "replicas" "5").soa "pkg/Krmfile"
        Model.pkgBroken).1).1
    0o644 "replicas=3\n" "ParseError: malformed resource document"
    "open pkg/Krmfile: read-only" rfl rfl rfl rfl rfl rfl

/-- C2 (observed behaviour, at a concrete run): the schema update persists `replicas=5`, the
reload of the definitions fails on an I/O error, and `Set` returns that error through the early
return after `openapi.AddSchemaFromFile`: no revert write is made and the schema file keeps
`replicas=5` instead of the captured `replicas=3`. -/
theorem Set_reload_failure_keeps_updated_schema :
    Model.pkg.bytes "pkg/Krmfile" = some "replicas=3\n" ∧
    (FieldSetter.Set (Model.env (some "read pkg/Krmfile: input/output error")) Faults.none
      (Model.fieldSetter "pkg" "replicas" "5") Model.pkg).err
      = some "read pkg/Krmfile: input/output error" ∧
    (FieldSetter.Set (Model.env (some "read pkg/Krmfile: input/output error")) Faults.none
      (Model.fieldSetter "pkg" "replicas" "5") Model.pkg).world.bytes "pkg/Krmfile"
      = some "replicas=5\n" ∧
    (FieldSetter.Set (Model.env (some "read pkg/Krmfile: input/output error")) Faults.none
      (Model.fieldSetter "pkg" "replicas" "5") Model.pkg).trace.any Event.isWriteFile = false := by
  refine ⟨?_, ?_, ?_, ?_⟩ <;> decide

/-- C7 (early failure modifies nothing): when the stat of the schema file fails, or its read
fails, or the schema update step fails and leaves the world as it found it, each with the
error `e`, then `Set` returns the count 0 and the error `e`, the world after the run is the
world before it (schema file and resource documents included), and the run neither executes
the document pipeline nor writes a file itself. -/
theorem Set_early_failure_modifies_nothing (E : Env) (fl : Faults) (fs : FieldSetter)
    (w : World) (e : Err)
    (h : os.Stat fl fs.OpenAPIPath w = .error e ∨
         ((∃ mode, os.Stat fl fs.OpenAPIPath w = .ok mode) ∧
           ioutil.ReadFile fl fs.OpenAPIPath w = .error e) ∨
         ((∃ mode, os.Stat fl fs.OpenAPIPath w = .ok mode) ∧
           (∃ B, ioutil.ReadFile fl fs.OpenAPIPath w = .ok B) ∧
           E.UpdateFile fs.soa fs.OpenAPIPath w = (w, some e))) :
    (FieldSetter.Set E fl fs w).count = 0 ∧
    (FieldSetter.Set E fl fs w).err = some e ∧
    (FieldSetter.Set E fl fs w).world = w ∧
    ∀ ev ∈ (FieldSetter.Set E fl fs w).trace, ev.isExecute = false ∧ ev.isWriteFile = false := by
  rcases h with hstat | ⟨⟨mode, hstat⟩, hread⟩ | ⟨⟨mode, hstat⟩, ⟨B, hread⟩, hupd⟩
  · simp [FieldSetter.Set, hstat, Event.isExecute, Event.isWriteFile]
  · simp [FieldSetter.Set, hstat, hread, Event.isExecute, Event.isWriteFile]
  · simp [FieldSetter.Set, hstat, hread, hupd, Event.isExecute, Event.isWriteFile]

/-- Witness of C7: the schema of the package has no setter `foo`; setting `foo` to `1` fails
in the schema update step, which writes nothing. -/
theorem Set_early_failure_modifies_nothing_witness :
    (FieldSetter.Set (Model.env none) Faults.none (Model.fieldSetter "pkg" "foo" "1")
      Model.pkg).count = 0 ∧
    (FieldSetter.Set (Model.env none) Faults.none (Model.fieldSetter "pkg" "foo" "1")
      Model.pkg).err = some "NotFoundError: setter foo is not defined" ∧
    (FieldSetter.Set (Model.env none) Faults.none (Model.fieldSetter "pkg" "foo" "1")
      Model.pkg).world = Model.pkg ∧
    ∀ ev ∈ (FieldSetter.Set (Model.env none) Faults.none (Model.fieldSetter "pkg" "foo" "1")
      Model.pkg).trace, ev.isExecute = false ∧ ev.isWriteFile = false :=
  Set_early_failure_modifies_nothing (Model.env none) Faults.none
    (Model.fieldSetter "pkg" "foo" "1") Model.pkg "NotFoundError: setter foo is not defined"
    (Or.inr (Or.inr ⟨⟨0o644, rfl⟩, ⟨"replicas=3\n", rfl⟩, rfl⟩))

/-- C8 (successful run): when the stat, the read, the schema update, the reload and the
document pipeline all succeed, `Set` returns no error and the `Count` that the pipeline run
left in the filter value `s`, which was created for the setter `fs.Name` with count 0; the
run writes no file itself, so it leaves the world as the pipeline left it, and the schema file
holds what the update step persisted whenever the reload and the pipeline did not touch it. -/
theorem Set_success_returns_filter_count (E : Env) (fl : Faults) (fs : FieldSetter)
    (w w1 w2 : World) (mode : Nat) (B : String)
    (hstat : os.Stat fl fs.OpenAPIPath w = .ok mode)
    (hread : ioutil.ReadFile fl fs.OpenAPIPath w = .ok B)
    (hupd : E.UpdateFile fs.soa fs.OpenAPIPath w = (w1, none))
    (hload : E.AddSchemaFromFile fs.OpenAPIPath w1 = (w2, none))
    (hexec : (E.Execute fs.pipeline w2).err = none) :
    (FieldSetter.Set E fl fs w).err = none ∧
    (FieldSetter.Set E fl fs w).count = (E.Execute fs.pipeline w2).s.Count ∧
    fs.pipeline.Filters = [{ Name := fs.Name, Count := 0, SetAll := false }] ∧
    (∀ ev ∈ (FieldSetter.Set E fl fs w).trace, ev.isWriteFile = false) ∧
    (FieldSetter.Set E fl fs w).world = (E.Execute fs.pipeline w2).world ∧
    (w2.bytes fs.OpenAPIPath = w1.bytes fs.OpenAPIPath →
      (E.Execute fs.pipeline w2).world.bytes fs.OpenAPIPath = w2.bytes fs.OpenAPIPath →
      (FieldSetter.Set E fl fs w).world.bytes fs.OpenAPIPath = w1.bytes fs.OpenAPIPath) := by
  have hworld : (FieldSetter.Set E fl fs w).world = (E.Execute fs.pipeline w2).world := by
    simp [FieldSetter.Set, hstat, hread, hupd, hload, hexec]
  refine ⟨?_, ?_, rfl, ?_, hworld, ?_⟩
  · simp [FieldSetter.Set, hstat, hread, hupd, hload, hexec]
  · simp [FieldSetter.Set, hstat, hread, hupd, hload, hexec]
  · simp [FieldSetter.Set, hstat, hread, hupd, hload, hexec, Event.isWriteFile]
  · intro h21 h32
    rw [hworld, h32, h21]

/-- Witness of C8: the scenario of spec §8.  Setting `replicas` to `5` returns the count 1 and
no error, the schema file stores `replicas=5` and the bound field holds `5`. -/
theorem Set_success_returns_filter_count_witness :
    (FieldSetter.Set (Model.env none) Faults.none (Model.fieldSetter "pkg" "replicas" "5")
      Model.pkg).err = none ∧
    (FieldSetter.Set (Model.env none) Faults.none (Model.fieldSetter "pkg" "replicas" "5")
      Model.pkg).count = 1 ∧
    (FieldSetter.Set (Model.env none) Faults.none (Model.fieldSetter "pkg" "replicas" "5")
      Model.pkg).world.bytes "pkg/Krmfile" = some "replicas=5\n" ∧
    (FieldSetter.Set (Model.env none) Faults.none (Model.fieldSetter "pkg" "replicas" "5")
      Model.pkg).world.docs.map (fun d => d.fields.map Field.value) = [["Deployment", "5"]] := by
  have h := Set_success_returns_filter_count (Model.env none) Faults.none
    (Model.fieldSetter "pkg" "replicas" "5") Model.pkg
    (Model.UpdateFile (Model.fieldSetter "pkg" "replicas" "5").soa "pkg/Krmfile" Model.pkg).1
    (Model.AddSchemaFromFile none "pkg/Krmfile"
      (Model.UpdateFile (Model.fieldSetter "pkg" "replicas" "5").soa "pkg/Krmfile" Model.pkg).1).1
    0o644 "replicas=3\n" rfl rfl rfl rfl rfl
  refine ⟨h.1, h.2.1.trans (by decide), (h.2.2.2.2.2 rfl rfl).trans (by decide), ?_⟩
  rw [h.2.2.2.2.1]
  decide

/-! ## `FieldSetter.Filter` -/

/-- C4 (as stated, refuted at a concrete call): `Set` returns the error of the schema update
step, and `Filter` returns no error. -/
theorem Filter_drops_Set_error :
    ¬ ((FieldSetter.Set (Model.env none) Faults.none (Model.fieldSetter "pkg" "foo" "1")
          Model.pkg).err ≠ none →
        (FieldSetter.Filter (Model.env none) Faults.none (Model.fieldSetter "pkg" "foo" "1")
          ([] : List Unit) Model.pkg).err ≠ none) := by
  decide

/-- C4 (amended): `Filter` returns the nil slice and the nil error for every receiver and
input; it stores the count returned by `Set` in the `Count` field of the receiver, changes no
other field, leaves the world as `Set` left it, and drops the error returned by `Set`. -/
theorem Filter_returns_nil_nil {Node : Type} (E : Env) (fl : Faults) (fs : FieldSetter)
    (input : List Node) (w : World) :
    (FieldSetter.Filter E fl fs input w).nodes = [] ∧
    (FieldSetter.Filter E fl fs input w).err = none ∧
    (FieldSetter.Filter E fl fs input w).fs
      = { fs with Count := (FieldSetter.Set E fl fs w).count } ∧
    (FieldSetter.Filter E fl fs input w).world = (FieldSetter.Set E fl fs w).world :=
  ⟨rfl, rfl, rfl, rfl⟩

/-! ## `DeleteSetterRunner.executeCmd` -/

/-- C5 (error policy): when the lookup of the schema file name succeeds with `name`,
`executeCmd` returns an error exactly when `Delete` failed and the recursion flag is false,
the error it returns is the one `Delete` returned, and with the recursion flag set it returns
no error whatever `Delete` returned. -/
theorem executeCmd_error_policy (E : Env) (r : DeleteSetterRunner) (pkgPath : String)
    (w : World) (name : String) (hname : E.OpenAPIFileName = .ok name) :
    ((r.executeCmd E pkgPath w).err ≠ none ↔
      ((E.Delete (r.deleter E pkgPath name) w).2 ≠ none ∧ r.RecurseSubPackages = false)) ∧
    (∀ e, (r.executeCmd E pkgPath w).err = some e →
      (E.Delete (r.deleter E pkgPath name) w).2 = some e) ∧
    (r.RecurseSubPackages = true → (r.executeCmd E pkgPath w).err = none) := by
  unfold DeleteSetterRunner.executeCmd
  simp only [hname]
  cases hd : E.Delete (r.deleter E pkgPath name) w with
  | mk w1 oe =>
    cases oe with
    | none => simp
    | some err =>
      cases hr : r.RecurseSubPackages <;> simp [DeleteSetterRunner.deleter, hr]

/-- Witness of C5: deleting `x` in the package `B`, whose schema does not define it, returns
an error without the recursion flag and none with it. -/
theorem executeCmd_error_policy_witness :
    ((Model.runner "x" false).executeCmd (Model.env none) "B" Model.pkgsAB).err ≠ none ∧
    ((Model.runner "x" true).executeCmd (Model.env none) "B" Model.pkgsAB).err = none :=
  ⟨(executeCmd_error_policy (Model.env none) (Model.runner "x" false) "B" Model.pkgsAB
      "Krmfile" rfl).1.mpr ⟨by decide, rfl⟩,
   (executeCmd_error_policy (Model.env none) (Model.runner "x" true) "B" Model.pkgsAB
      "Krmfile" rfl).2.2 rfl⟩

theorem executeCmd_of_delete_ok (E : Env) (r : DeleteSetterRunner) (pkgPath : String)
    (w w1 : World) (name : String) (hname : E.OpenAPIFileName = .ok name)
    (hd : E.Delete (r.deleter E pkgPath name) w = (w1, none)) :
    r.executeCmd E pkgPath w =
      { r := { r with DeleteSetter := r.deleter E pkgPath name },
        written := ["deleted setter " ++ E.Quote r.DeleteSetter.Name ++ " in package "
                      ++ E.Quote pkgPath ++ "\n\n"],
        err := none, world := w1 } := by
  unfold DeleteSetterRunner.executeCmd
  simp only [hname, hd]
  rfl

theorem executeCmd_of_delete_err_recursive (E : Env) (r : DeleteSetterRunner) (pkgPath : String)
    (w w1 : World) (name : String) (e : Err) (hname : E.OpenAPIFileName = .ok name)
    (hd : E.Delete (r.deleter E pkgPath name) w = (w1, some e))
    (hr : r.RecurseSubPackages = true) :
    r.executeCmd E pkgPath w =
      { r := { r with DeleteSetter := r.deleter E pkgPath name },
        written := [e ++ " in package " ++ E.Quote pkgPath ++ "\n\n"],
        err := none, world := w1 } := by
  unfold DeleteSetterRunner.executeCmd
  simp only [hname, hd]
  simp [DeleteSetterRunner.deleter, hr]

theorem executeCmd_of_delete_err_flat (E : Env) (r : DeleteSetterRunner) (pkgPath : String)
    (w w1 : World) (name : String) (e : Err) (hname : E.OpenAPIFileName = .ok name)
    (hd : E.Delete (r.deleter E pkgPath name) w = (w1, some e))
    (hr : r.RecurseSubPackages = false) :
    r.executeCmd E pkgPath w =
      { r := { r with DeleteSetter := r.deleter E pkgPath name },
        written := [], err := some e, world := w1 } := by
  unfold DeleteSetterRunner.executeCmd
  simp only [hname, hd]
  simp [DeleteSetterRunner.deleter, hr]

/-- C6 (per-package reporting): when the lookup of the schema file name succeeds with `name`,
`executeCmd` hands exactly one message to the writer when it returns no error and none when
it returns an error.  When `Delete` succeeded the message is `deleted setter`, the quoted
setter name, ` in package `, the quoted package path and a blank line; when `Delete` failed
with `e` and the recursion flag is set it is the text of `e`, ` in package `, the quoted
package path and a blank line.  Consequently, with the recursion flag set, visiting a package
where `Delete` succeeds and then a package `pkgB` where it fails with `e` returns no error
either time and writes the success message of the first followed by the error message of the
second. -/
theorem executeCmd_reports_once (E : Env) (r : DeleteSetterRunner) (pkgPath : String)
    (w : World) (name : String) (hname : E.OpenAPIFileName = .ok name) :
    ((r.executeCmd E pkgPath w).err = none → (r.executeCmd E pkgPath w).written.length = 1) ∧
    ((r.executeCmd E pkgPath w).err ≠ none → (r.executeCmd E pkgPath w).written = []) ∧
    ((E.Delete (r.deleter E pkgPath name) w).2 = none →
      (r.executeCmd E pkgPath w).written =
        ["deleted setter " ++ E.Quote r.DeleteSetter.Name ++ " in package "
          ++ E.Quote pkgPath ++ "\n\n"]) ∧
    (∀ e, (E.Delete (r.deleter E pkgPath name) w).2 = some e → r.RecurseSubPackages = true →
      (r.executeCmd E pkgPath w).written = [e ++ " in package " ++ E.Quote pkgPath ++ "\n\n"]) ∧
    (∀ pkgB e, (E.Delete (r.deleter E pkgPath name) w).2 = none →
      r.RecurseSubPackages = true →
      (E.Delete ((r.executeCmd E pkgPath w).r.deleter E pkgB name)
        (r.executeCmd E pkgPath w).world).2 = some e →
      (r.executeCmd E pkgPath w).err = none ∧
      ((r.executeCmd E pkgPath w).r.executeCmd E pkgB (r.executeCmd E pkgPath w).world).err
        = none ∧
      (r.executeCmd E pkgPath w).written ++
        ((r.executeCmd E pkgPath w).r.executeCmd E pkgB (r.executeCmd E pkgPath w).world).written
        = ["deleted setter " ++ E.Quote r.DeleteSetter.Name ++ " in package "
            ++ E.Quote pkgPath ++ "\n\n",
           e ++ " in package " ++ E.Quote pkgB ++ "\n\n"]) := by
  cases hd : E.Delete (r.deleter E pkgPath name) w with
  | mk w1 oe =>
    cases oe with
    | none =>
      have hA := executeCmd_of_delete_ok E r pkgPath w w1 name hname hd
      refine ⟨?_, ?_, ?_, ?_, ?_⟩
      · intro _; rw [hA]; rfl
      · intro h; rw [hA] at h; exact absurd rfl h
      · intro _; rw [hA]
      · intro e h; simp at h
      · intro pkgB e _ hr hB
        rw [hA] at hB ⊢
        cases hdB : E.Delete
            (({ r with DeleteSetter := r.deleter E pkgPath name } : DeleteSetterRunner).deleter
              E pkgB name) w1 with
        | mk w2 oe2 =>
          simp only [hdB] at hB
          subst hB
          have hB2 := executeCmd_of_delete_err_recursive E
            ({ r with DeleteSetter := r.deleter E pkgPath name } : DeleteSetterRunner)
            pkgB w1 w2 name e hname hdB hr
          rw [hB2]
          simp [DeleteSetterRunner.deleter]
    | some err =>
      cases hr : r.RecurseSubPackages with
      | true =>
        have hA := executeCmd_of_delete_err_recursive E r pkgPath w w1 name err hname hd hr
        refine ⟨?_, ?_, ?_, ?_, ?_⟩
        · intro _; rw [hA]; rfl
        · intro h; rw [hA] at h; exact absurd rfl h
        · intro h; simp at h
        · intro e h _
          simp only [Option.some.injEq] at h
          subst h
          rw [hA]
        · intro pkgB e h; simp at h
      | false =>
        have hA := executeCmd_of_delete_err_flat E r pkgPath w w1 name err hname hd hr
        refine ⟨?_, ?_, ?_, ?_, ?_⟩
        · intro h; rw [hA] at h; simp at h
        · intro _; rw [hA]
        · intro h; simp at h
        · intro e _ h; simp at h
        · intro pkgB e h; simp at h

/-- Witness of C6: the scenario of spec §8.  Deleting `x` recursively over `A`, whose schema
defines `x`, and `B`, whose schema does not, returns no error for either package and writes a
success message for `A` followed by an error message for `B`. -/
theorem executeCmd_reports_once_witness :
    ((Model.runner "x" true).executeCmd (Model.env none) "A" Model.pkgsAB).err = none ∧
    (((Model.runner "x" true).executeCmd (Model.env none) "A" Model.pkgsAB).r.executeCmd
      (Model.env none) "B"
      ((Model.runner "x" true).executeCmd (Model.env none) "A" Model.pkgsAB).world).err = none ∧
    ((Model.runner "x" true).executeCmd (Model.env none) "A" Model.pkgsAB).written ++
      (((Model.runner "x" true).executeCmd (Model.env none) "A" Model.pkgsAB).r.executeCmd
        (Model.env none) "B"
        ((Model.runner "x" true).executeCmd (Model.env none) "A" Model.pkgsAB).world).written
      = ["deleted setter \"x\" in package \"A\"\n\n",
         "NotFoundError: setter x does not exist in package \"B\"\n\n"] :=
  (executeCmd_reports_once (Model.env none) (Model.runner "x" true) "A" Model.pkgsAB
    "Krmfile" rfl).2.2.2.2 "B" "NotFoundError: setter x does not exist" rfl rfl rfl

/-! ## `SetAllSetterDefinitions` -/

theorem SetAllSetterDefinitions.loop_err_none_iff (E : Env) (dirs : List String) :
    ∀ (w : World) (tr : List Event),
      (SetAllSetterDefinitions.loop E dirs w tr).err = none ↔
        SetAllSetterDefinitions.allSucceed E dirs w = true := by
  induction dirs with
  | nil => intro w tr; simp [SetAllSetterDefinitions.loop, SetAllSetterDefinitions.allSucceed]
  | cons dir dirs ih =>
    intro w tr
    unfold SetAllSetterDefinitions.loop SetAllSetterDefinitions.allSucceed
    cases he : (E.Execute (SetAllSetterDefinitions.pipeline dir) w).err with
    | none => simp [he, ih]
    | some err => simp [he]

theorem SetAllSetterDefinitions.loop_trace_of_allSucceed (E : Env) (dirs : List String) :
    ∀ (w : World) (tr : List Event),
      SetAllSetterDefinitions.allSucceed E dirs w = true →
      (SetAllSetterDefinitions.loop E dirs w tr).trace
        = tr ++ dirs.map (fun d => Event.execute (SetAllSetterDefinitions.pipeline d)) := by
  induction dirs with
  | nil => intro w tr _; simp [SetAllSetterDefinitions.loop]
  | cons dir dirs ih =>
    intro w tr h
    unfold SetAllSetterDefinitions.allSucceed at h
    unfold SetAllSetterDefinitions.loop
    cases he : (E.Execute (SetAllSetterDefinitions.pipeline dir) w).err with
    | none =>
      simp only [he, Option.isNone_none, Bool.true_and] at h
      simp [he, ih _ _ h]
    | some err => simp [he] at h

theorem SetAllSetterDefinitions.loop_first_failure (E : Env) (pre : List String) :
    ∀ (d : String) (post : List String) (w : World) (tr : List Event) (e : Err),
      SetAllSetterDefinitions.allSucceed E pre w = true →
      (E.Execute (SetAllSetterDefinitions.pipeline d)
        (SetAllSetterDefinitions.worldAfter E pre w)).err = some e →
      (SetAllSetterDefinitions.loop E (pre ++ d :: post) w tr).err = some e ∧
      (SetAllSetterDefinitions.loop E (pre ++ d :: post) w tr).trace
        = tr ++ (pre ++ [d]).map (fun d => Event.execute (SetAllSetterDefinitions.pipeline d)) := by
  induction pre with
  | nil =>
    intro d post w tr e _ he
    simp only [SetAllSetterDefinitions.worldAfter] at he
    simp [SetAllSetterDefinitions.loop, he]
  | cons dir pre ih =>
    intro d post w tr e h he
    unfold SetAllSetterDefinitions.allSucceed at h
    simp only [SetAllSetterDefinitions.worldAfter] at he
    cases hx : (E.Execute (SetAllSetterDefinitions.pipeline dir) w).err with
    | none =>
      simp only [hx, Option.isNone_none, Bool.true_and] at h
      have := ih d post _ (tr ++ [Event.execute (SetAllSetterDefinitions.pipeline dir)]) e h he
      simp only [List.cons_append, SetAllSetterDefinitions.loop, hx]
      simpa using this
    | some err => simp [hx] at h

theorem SetAllSetterDefinitions.loop_trace_mem (E : Env) (dirs : List String) :
    ∀ (w : World) (tr : List Event) (ev : Event),
      ev ∈ (SetAllSetterDefinitions.loop E dirs w tr).trace →
      ev ∈ tr ∨ ∃ d ∈ dirs, ev = Event.execute (SetAllSetterDefinitions.pipeline d) := by
  induction dirs with
  | nil => intro w tr ev h; simpa [SetAllSetterDefinitions.loop] using h
  | cons dir dirs ih =>
    intro w tr ev h
    unfold SetAllSetterDefinitions.loop at h
    cases he : (E.Execute (SetAllSetterDefinitions.pipeline dir) w).err with
    | none =>
      simp only [he] at h
      rcases ih _ _ _ h with h1 | ⟨d, hd, rfl⟩
      · rcases List.mem_append.mp h1 with h2 | h2
        · exact Or.inl h2
        · exact Or.inr ⟨dir, by simp, by simpa using h2⟩
      · exact Or.inr ⟨d, by simp [hd], rfl⟩
    | some err =>
      simp only [he] at h
      rcases List.mem_append.mp h with h2 | h2
      · exact Or.inl h2
      · exact Or.inr ⟨dir, by simp, by simpa using h2⟩

/-- C10 (fail-fast and ordered): `SetAllSetterDefinitions` returns no error exactly when the
schema load succeeds and the pipelines of the directories, run in argument order, all
succeed, and then it has run the load followed by one pipeline per directory, in order.  When
the load fails with `e` it returns `e` and has run nothing but the load.  When the load
succeeds and the pipeline of `d` is the first to fail, with `e`, it returns `e` and has run the
load followed by the pipelines of the directories up to `d`, and none after `d`.  Every
pipeline it runs reads and writes with `NoDeleteFiles` set. -/
theorem SetAllSetterDefinitions_fail_fast (E : Env) (openAPIPath : String) (dirs : List String)
    (w : World) :
    ((SetAllSetterDefinitions E openAPIPath dirs w).err = none ↔
      ((E.AddSchemaFromFile openAPIPath w).2 = none ∧
        SetAllSetterDefinitions.allSucceed E dirs (E.AddSchemaFromFile openAPIPath w).1 = true)) ∧
    ((E.AddSchemaFromFile openAPIPath w).2 = none →
      SetAllSetterDefinitions.allSucceed E dirs (E.AddSchemaFromFile openAPIPath w).1 = true →
      (SetAllSetterDefinitions E openAPIPath dirs w).trace
        = Event.addSchemaFromFile openAPIPath ::
            dirs.map (fun d => Event.execute (SetAllSetterDefinitions.pipeline d))) ∧
    (∀ e, (E.AddSchemaFromFile openAPIPath w).2 = some e →
      (SetAllSetterDefinitions E openAPIPath dirs w).err = some e ∧
      (SetAllSetterDefinitions E openAPIPath dirs w).trace
        = [Event.addSchemaFromFile openAPIPath]) ∧
    (∀ pre d post e, dirs = pre ++ d :: post →
      (E.AddSchemaFromFile openAPIPath w).2 = none →
      SetAllSetterDefinitions.allSucceed E pre (E.AddSchemaFromFile openAPIPath w).1 = true →
      (E.Execute (SetAllSetterDefinitions.pipeline d)
        (SetAllSetterDefinitions.worldAfter E pre (E.AddSchemaFromFile openAPIPath w).1)).err
        = some e →
      (SetAllSetterDefinitions E openAPIPath dirs w).err = some e ∧
      (SetAllSetterDefinitions E openAPIPath dirs w).trace
        = Event.addSchemaFromFile openAPIPath ::
            (pre ++ [d]).map (fun d => Event.execute (SetAllSetterDefinitions.pipeline d))) ∧
    (∀ p, Event.execute p ∈ (SetAllSetterDefinitions E openAPIPath dirs w).trace →
      ∀ rw ∈ p.Inputs ++ p.Outputs, rw.NoDeleteFiles = true) := by
  unfold SetAllSetterDefinitions
  cases hl : E.AddSchemaFromFile openAPIPath w with
  | mk w1 oe =>
    cases oe with
    | some err =>
      refine ⟨by simp, by simp, ?_, by simp, ?_⟩
      · intro e he
        simp only [Option.some.injEq] at he
        subst he
        simp
      · intro p hp
        simp at hp
    | none =>
      refine ⟨?_, ?_, by simp, ?_, ?_⟩
      · simp [SetAllSetterDefinitions.loop_err_none_iff]
      · intro _ h
        simp [SetAllSetterDefinitions.loop_trace_of_allSucceed E dirs w1 _ h]
      · intro pre d post e hdirs _ hpre he
        subst hdirs
        have := SetAllSetterDefinitions.loop_first_failure E pre d post w1
          [Event.addSchemaFromFile openAPIPath] e hpre he
        simpa using this
      · intro p hp rw hrw
        rcases SetAllSetterDefinitions.loop_trace_mem E dirs w1 _ _ hp with h1 | ⟨d, _, hd⟩
        · simp at h1
        · simp only [Event.execute.injEq] at hd
          subst hd
          simp only [SetAllSetterDefinitions.pipeline, List.mem_append, List.mem_singleton] at hrw
          rcases hrw with h | h <;> simp [h, SetAllSetterDefinitions.rw]

/-- Witness of C10: over the directories `pkg`, `bad`, `late`, the pipeline of `bad` is the
first to fail; the parse error is returned, the load and the pipelines of `pkg` and `bad` have
run, and the pipeline of `late` has not. -/
theorem SetAllSetterDefinitions_fail_fast_witness :
    (SetAllSetterDefinitions (Model.env none) "pkg/Krmfile" ["pkg", "bad", "late"]
      Model.tree).err = some "ParseError: malformed resource document" ∧
    (SetAllSetterDefinitions (Model.env none) "pkg/Krmfile" ["pkg", "bad", "late"]
      Model.tree).trace
      = Event.addSchemaFromFile "pkg/Krmfile" ::
          (["pkg"] ++ ["bad"]).map
            (fun d => Event.execute (SetAllSetterDefinitions.pipeline d)) :=
  (SetAllSetterDefinitions_fail_fast (Model.env none) "pkg/Krmfile" ["pkg", "bad", "late"]
    Model.tree).2.2.2.1 ["pkg"] "bad" ["late"] "ParseError: malformed resource document"
    rfl rfl rfl rfl

end Kustomize
